import Mathlib

/-!
Shallow embedding of the authentication/authorization middleware
(lib/auth-middleware.ts), the sign-in token issuance
(app/api/auth/signin/route.ts) and the order-update PATCH handlers
(the two variants of app/api/admin/orders/[orderId]/route.ts) of the
laundry-marketplace backend, together with theorems settling the
spec claims about them.

Roles and order statuses are strings in the source, so they are
strings here.  Database access (`prisma.*.findUnique` etc.) is
modelled by explicit lookup functions passed to each operation.
JWT signing/verification (`jose`) is modelled abstractly: a token is
its decoded payload together with the secret it was signed with, and
`jwtVerify` succeeds exactly when the secret matches the server
secret and the token is unexpired.  JavaScript truthiness of optional
strings (`!x`, `x && …`) is modelled explicitly where the source
relies on it.
-/

namespace Laundry

/-- Decoded JWT payload, as produced by `createJWT` in
app/api/auth/signin/route.ts (fields sub, email, name, role, iat, exp). -/
structure TokenPayload where
  sub : String
  email : String
  name : Option String
  role : String
  iat : Nat
  exp : Nat
deriving DecidableEq, Repr

/-- A signed token: the payload plus the secret used to sign it
(abstracting the HS256 signature). -/
structure Token where
  payload : TokenPayload
  secret : String
deriving DecidableEq, Repr

/-- Model of `jwtVerify(token, secret)`: succeeds iff the token was signed
with the server secret and the `exp` claim is still in the future. -/
def jwtVerify (serverSecret : String) (now : Nat) (t : Token) : Option TokenPayload :=
  if t.secret = serverSecret ∧ now < t.payload.exp then some t.payload else none

/-- The user row selected by `authenticateUser` / the signin route
(prisma `user` table; `laundry` is the optional owned laundry relation,
projected to its id; `suspendedAt` is an optional timestamp). -/
structure UserRecord where
  id : String
  email : String
  name : Option String
  password : Option String
  role : String
  suspendedAt : Option Nat
  suspensionReason : Option String
  laundryId : Option String
deriving DecidableEq, Repr

/-- The `AuthUser` interface of lib/auth-middleware.ts. -/
structure AuthUser where
  sub : String
  email : String
  name : String
  role : String
  laundryId : Option String
  isSuspended : Bool
  suspensionReason : Option String
deriving DecidableEq, Repr

/-- Result of the middleware functions: either `{ user, error: null }` or a
JSON `NextResponse` error, modelled by its HTTP status, `message` field and
optional `reason` field. -/
inductive AuthResult where
  | ok (user : AuthUser)
  | resp (status : Nat) (message : String) (reason : Option String)
deriving DecidableEq, Repr

/-- HTTP status of an error result (`none` on success). -/
def AuthResult.httpStatus : AuthResult → Option Nat
  | .ok _ => none
  | .resp s _ _ => some s

/-- The empty string (named, for use in argument position). -/
def emptyString : String := ""

/-- Default suspension message of `authenticateUser`. -/
def suspendedFallback : String := "Account temporarily suspended"

/-- JavaScript truthiness of `string | null`: `null` and the empty string
are falsy (used for `suspensionReason || …`). -/
def jsStrOr (x : Option String) (dflt : String) : String :=
  match x with
  | none => dflt
  | some s => if s = "" then dflt else s

/-- Model of `x || undefined` on `string | null`. -/
def jsStrOrUndef (x : Option String) : Option String :=
  match x with
  | none => none
  | some s => if s = "" then none else some s

/-- Function `authenticateUser` of lib/auth-middleware.ts, starting after the
`Authorization: Bearer` header has been split off (the claims under
study all presuppose a presented token).  `findUser` models
`prisma.user.findUnique({ where: { id: payload.sub } })`. -/
def authenticateUser (serverSecret : String) (now : Nat)
    (findUser : String → Option UserRecord) (token : Token) : AuthResult :=
  match jwtVerify serverSecret now token with
  | none => .resp 401 "Invalid or expired token" none
  | some payload =>
    match findUser payload.sub with
    | none => .resp 401 "User not found" none
    | some user =>
      if user.suspendedAt.isSome then
        .resp 403 "Account suspended" (some (jsStrOr user.suspensionReason suspendedFallback))
      else
        .ok { sub := user.id
              email := user.email
              name := jsStrOr user.name emptyString
              role := user.role
              laundryId := user.laundryId
              isSuspended := user.suspendedAt.isSome
              suspensionReason := jsStrOrUndef user.suspensionReason }

/-- The optional `options` argument of `requireRole`. -/
structure RoleOptions where
  requireLaundry : Option Bool
  allowSuperAdmin : Option Bool
deriving DecidableEq, Repr

/-- Access `options?.field` on the optional options object. -/
def optField (o : Option RoleOptions) (f : RoleOptions → Option Bool) : Option Bool :=
  match o with
  | none => none
  | some r => f r

/-- JavaScript truthiness of `!user.laundryId`. -/
def jsFalsyStr (x : Option String) : Bool :=
  match x with
  | none => true
  | some s => s = ""

/-- Function `requireRole` of lib/auth-middleware.ts: authenticate, then
(1) SUPER_ADMIN bypass unless `allowSuperAdmin === false`,
(2) membership in `allowedRoles`,
(3) if `requireLaundry` is truthy, an ADMIN must have a laundry. -/
def requireRole (serverSecret : String) (now : Nat)
    (findUser : String → Option UserRecord) (token : Token)
    (allowedRoles : List String) (options : Option RoleOptions) : AuthResult :=
  match authenticateUser serverSecret now findUser token with
  | .resp s m r => .resp s m r
  | .ok user =>
    if user.role = "SUPER_ADMIN" ∧ optField options RoleOptions.allowSuperAdmin ≠ some false then
      .ok user
    else if ¬ (allowedRoles.contains user.role) then
      .resp 403 "Insufficient permissions" none
    else if optField options RoleOptions.requireLaundry = some true ∧
        user.role = "ADMIN" ∧ jsFalsyStr user.laundryId then
      .resp 403 "Admin must be associated with a laundry" none
    else
      .ok user

/-- The order row selected by `requireOrderAccess`
(`select: { id, customerId, laundryId }`; both foreign keys are NOT NULL
in the schema). -/
structure OrderRow where
  id : String
  customerId : String
  laundryId : String
deriving DecidableEq, Repr

/-- Database view used by the ownership middleware: user lookup by id,
the (ordered) list of a user's orders projected to `laundryId`
(from which `take: 1` fetches the head), and order lookup by id. -/
structure DB where
  findUser : String → Option UserRecord
  ordersOf : String → List String
  findOrder : String → Option OrderRow

/-- Function `requireCustomerOwnership` of lib/auth-middleware.ts: role gate on
CUSTOMER/ADMIN/SUPER_ADMIN, SUPER_ADMIN bypass, customers only reach
their own resources, and an ADMIN is checked against the laundry of the
customer's first fetched order (`take: 1`) — only when at least one
order was fetched. -/
def requireCustomerOwnership (serverSecret : String) (now : Nat) (db : DB)
    (token : Token) (resourceUserId : String) : AuthResult :=
  match requireRole serverSecret now db.findUser token ["CUSTOMER", "ADMIN", "SUPER_ADMIN"] none with
  | .resp s m r => .resp s m r
  | .ok user =>
    if user.role = "SUPER_ADMIN" then
      .ok user
    else if user.role = "CUSTOMER" ∧ user.sub ≠ resourceUserId then
      .resp 403 "Access denied: You can only access your own resources" none
    else if user.role = "ADMIN" then
      match db.findUser resourceUserId with
      | none => .resp 404 "Customer not found" none
      | some _ =>
        match (db.ordersOf resourceUserId).take 1 with
        | [] => .ok user
        | firstLaundry :: _ =>
          if some firstLaundry ≠ user.laundryId then
            .resp 403 "Access denied: Customer not associated with your laundry" none
          else
            .ok user
    else
      .ok user

/-- Function `requireOrderAccess` of lib/auth-middleware.ts: role gate on
CUSTOMER/ADMIN/SUPER_ADMIN, SUPER_ADMIN bypass before the order lookup,
404 when the order is missing, customers must own the order, admins must
belong to the order's laundry. -/
def requireOrderAccess (serverSecret : String) (now : Nat) (db : DB)
    (token : Token) (orderId : String) : AuthResult :=
  match requireRole serverSecret now db.findUser token ["CUSTOMER", "ADMIN", "SUPER_ADMIN"] none with
  | .resp s m r => .resp s m r
  | .ok user =>
    if user.role = "SUPER_ADMIN" then
      .ok user
    else
      match db.findOrder orderId with
      | none => .resp 404 "Order not found" none
      | some order =>
        if user.role = "CUSTOMER" ∧ order.customerId ≠ user.sub then
          .resp 403 "Access denied: You can only access your own orders" none
        else if user.role = "ADMIN" ∧ some order.laundryId ≠ user.laundryId then
          .resp 403 "Access denied: Order not associated with your laundry" none
        else
          .ok user

/-- Function `createJWT(user)` of app/api/auth/signin/route.ts: payload carries the
user's id/email/name/role, `iat = now`, `exp = now + 7 days`, signed with
the server secret. -/
def createJWT (secret : String) (now : Nat) (user : UserRecord) : Token :=
  { payload :=
      { sub := user.id
        email := user.email
        name := user.name
        role := user.role
        iat := now
        exp := now + 7 * 24 * 60 * 60 }
    secret := secret }

/-- The credential-checking core of `POST` in app/api/auth/signin/route.ts:
look the user up by email, require a stored password hash, compare with
`bcrypt.compare` (abstracted as a function), and on success issue the JWT.
The route performs no suspension check.  Returns the issued token, or
`none` on invalid credentials. -/
def signinPOST (bcryptCompare : String → String → Bool) (secret : String) (now : Nat)
    (findByEmail : String → Option UserRecord) (email password : String) : Option Token :=
  match findByEmail email with
  | none => none
  | some user =>
    match user.password with
    | none => none
    | some hash =>
      if bcryptCompare password hash then some (createJWT secret now user) else none

/-! Order-update PATCH handlers.

The repository carries two variants of the
`PATCH /api/admin/orders/[orderId]` handler.  The first (guarded) variant
validates a requested status change against `validTransitions` before the
`prisma.order.update`, and creates an activity row only when the status
actually changed.  The second (unguarded) variant checks the requested
status only for membership in `validStatuses`, updates unconditionally,
and always creates an activity row. -/

/-- The `validTransitions` record of the guarded PATCH handler
(note: no `REFUNDED` key — the handler falls back to `[]`). -/
def validTransitions : List (String × List String) :=
  [ ("PENDING", ["CONFIRMED", "CANCELED"])
  , ("CONFIRMED", ["IN_PROGRESS", "CANCELED"])
  , ("IN_PROGRESS", ["READY_FOR_PICKUP", "CANCELED"])
  , ("READY_FOR_PICKUP", ["OUT_FOR_DELIVERY", "CANCELED"])
  , ("OUT_FOR_DELIVERY", ["DELIVERED", "CANCELED"])
  , ("DELIVERED", ["COMPLETED"])
  , ("COMPLETED", [])
  , ("CANCELED", []) ]

/-- The lookup `validTransitions[status] || []`. -/
def allowedTargets (status : String) : List String :=
  (validTransitions.lookup status).getD []

/-- The body accepted by `updateOrderSchema` of the guarded handler
(`status` limited by the zod enum to the eight non-REFUNDED statuses;
all fields optional). -/
structure UpdateOrderData where
  status : Option String
  pickupDate : Option String
  deliveryDate : Option String
  notes : Option String
deriving DecidableEq, Repr

/-- Projection `select: (status, orderNumber)` of the guarded handler's
`findUnique`. -/
structure CurrentOrder where
  status : String
  orderNumber : String
deriving DecidableEq, Repr

/-- The activity row created for a status change (type, metadata
`previousStatus`/`newStatus`, and the acting user's id). -/
structure ActivityRow where
  type : String
  previousStatus : String
  newStatus : String
  userId : Option String
deriving DecidableEq, Repr

/-- Observable outcome of a PATCH handler: HTTP status and message of the
JSON envelope, the status stored by the `prisma.order.update` call when
one executed (`none` when no write happened), and the activity row
created when one was. -/
structure PatchOutcome where
  httpStatus : Nat
  message : String
  persistedStatus : Option String
  activity : Option ActivityRow
deriving DecidableEq, Repr

/-- Condition `updateData.status && updateData.status !== currentOrder.status`
(the zod enum excludes the empty string, but truthiness is modelled
anyway). -/
def isStatusChange (upd : UpdateOrderData) (currentStatus : String) : Bool :=
  match upd.status with
  | none => false
  | some s => ¬ (s = "") ∧ s ≠ currentStatus

/-- The guarded PATCH handler of app/api/admin/orders/[orderId]/route.ts,
after authorization and body validation: re-read the order, validate the
requested transition against `allowedTargets` (returning a 400 naming
both statuses, with nothing persisted), otherwise update and — only on an
actual status change — create an activity row. -/
def patchGuarded (currentOrder : Option CurrentOrder) (upd : UpdateOrderData)
    (userSub : String) : PatchOutcome :=
  match currentOrder with
  | none => { httpStatus := 404, message := "Order not found", persistedStatus := none, activity := none }
  | some cur =>
    if isStatusChange upd cur.status ∧ ¬ ((allowedTargets cur.status).contains ((upd.status).getD emptyString)) then
      { httpStatus := 400
        message := "Invalid status transition from " ++ cur.status ++ " to " ++ ((upd.status).getD emptyString)
        persistedStatus := none
        activity := none }
    else
      { httpStatus := 200
        message := "Order updated successfully"
        persistedStatus := some ((upd.status).getD cur.status)
        activity :=
          if isStatusChange upd cur.status then
            some { type := "ORDER_UPDATED"
                   previousStatus := cur.status
                   newStatus := (upd.status).getD emptyString
                   userId := some userSub }
          else none }

/-- The `validStatuses` list of the unguarded PATCH handler
(no `REFUNDED` here either). -/
def validStatuses : List String :=
  [ "PENDING", "CONFIRMED", "IN_PROGRESS", "READY_FOR_PICKUP"
  , "OUT_FOR_DELIVERY", "DELIVERED", "COMPLETED", "CANCELED" ]

/-- Function `getActivityType` of the unguarded PATCH handler. -/
def getActivityType (orderStatus : String) : String :=
  if orderStatus = "PENDING" then "ORDER_CREATED"
  else if orderStatus = "CONFIRMED" then "ORDER_UPDATED"
  else if orderStatus = "IN_PROGRESS" then "ORDER_UPDATED"
  else if orderStatus = "READY_FOR_PICKUP" then "ORDER_UPDATED"
  else if orderStatus = "OUT_FOR_DELIVERY" then "ORDER_UPDATED"
  else if orderStatus = "DELIVERED" then "ORDER_COMPLETED"
  else if orderStatus = "COMPLETED" then "ORDER_COMPLETED"
  else if orderStatus = "CANCELED" then "ORDER_CANCELED"
  else "ORDER_UPDATED"

/-- Body of the unguarded handler (`const { status, notes } = body`). -/
structure StatusBody where
  status : Option String
  notes : Option String
deriving DecidableEq, Repr

/-- The unguarded PATCH handler of app/api/admin/orders/[orderId]/route.ts:
require `laundryId` and a `status` in `validStatuses`, require the order to
exist under that laundry, then update the status unconditionally — no
transition validation against the current status — and always create an
activity row. -/
def patchUnguarded (laundryId : Option String) (body : StatusBody)
    (existingStatus : Option String) : PatchOutcome :=
  match laundryId with
  | none => { httpStatus := 400, message := "laundryId parameter is required", persistedStatus := none, activity := none }
  | some _ =>
    match body.status with
    | none => { httpStatus := 400, message := "Status is required", persistedStatus := none, activity := none }
    | some st =>
      if st = "" then
        { httpStatus := 400, message := "Status is required", persistedStatus := none, activity := none }
      else if ¬ (validStatuses.contains st) then
        { httpStatus := 400, message := "Invalid status", persistedStatus := none, activity := none }
      else
        match existingStatus with
        | none => { httpStatus := 404, message := "Order not found or does not belong to this laundry", persistedStatus := none, activity := none }
        | some prev =>
          { httpStatus := 200
            message := "Order status updated successfully"
            persistedStatus := some st
            activity := some { type := getActivityType st, previousStatus := prev, newStatus := st, userId := none } }

/-! Interleaved execution of the guarded handler.

`patchGuarded` performs its `findUnique` read and its `update` write as
separate asynchronous calls.  The write is keyed only by the order id
(`where: { id } `), so it is unconditional: validation uses the earlier
read, not the state at write time.  `patchRead`/`patchWrite` split the
handler at that suspension point so two concurrent requests can be
interleaved against a shared stored status. -/

/-- Phase 1 of the guarded handler: the `findUnique` read of the stored
status. -/
def patchRead (storedStatus : String) : String :=
  storedStatus

/-- Phase 2 of the guarded handler: validate the requested change against
the status read in phase 1, then write unconditionally (`update` keyed by
id only).  Returns the new stored status and the response. -/
def patchWrite (readStatus : String) (upd : UpdateOrderData) (userSub : String)
    (storedStatus : String) : String × PatchOutcome :=
  if isStatusChange upd readStatus ∧ ¬ ((allowedTargets readStatus).contains ((upd.status).getD emptyString)) then
    (storedStatus,
      { httpStatus := 400
        message := "Invalid status transition from " ++ readStatus ++ " to " ++ ((upd.status).getD emptyString)
        persistedStatus := none
        activity := none })
  else
    ((upd.status).getD storedStatus,
      { httpStatus := 200
        message := "Order updated successfully"
        persistedStatus := some ((upd.status).getD storedStatus)
        activity :=
          if isStatusChange upd readStatus then
            some { type := "ORDER_UPDATED"
                   previousStatus := readStatus
                   newStatus := (upd.status).getD emptyString
                   userId := some userSub }
          else none })

/-- Both requests read the stored status, then both write, in order
A-read, B-read, A-write, B-write.  Returns the final stored status and the
two responses. -/
def interleavedPatches (storedStatus : String) (updA updB : UpdateOrderData)
    (subA subB : String) : String × PatchOutcome × PatchOutcome :=
  let readA := patchRead storedStatus
  let readB := patchRead storedStatus
  let stepA := patchWrite readA updA subA storedStatus
  let stepB := patchWrite readB updB subB stepA.1
  (stepB.1, stepA.2, stepB.2)

/-! Concrete fixtures: a server secret, user records, a database view and
request bodies used to instantiate the theorems below on closed inputs. -/

/-- Server-side signing secret used by the fixtures. -/
def secret0 : String := "server-secret"

/-- Tenant id of laundry A. -/
def laundryA : String := "laundry-A"

/-- Tenant id of laundry B. -/
def laundryB : String := "laundry-B"

/-- Suspension reason stored on the suspended fixture user. -/
def reasonFraud : String := "fraud"

/-- Password accepted for the suspended fixture user. -/
def pwHash : String := "pw-hash"

/-- Password accepted for the unsuspended customer fixture. -/
def pwFree : String := "pw-free"

/-- A SUPER_ADMIN user record. -/
def superUserRec : UserRecord :=
  { id := "user-super", email := "root@example.com", name := some "Root"
    password := some "pw-root", role := "SUPER_ADMIN", suspendedAt := none
    suspensionReason := none, laundryId := none }

/-- An ADMIN bound to laundry A. -/
def adminARec : UserRecord :=
  { id := "user-admA", email := "adminA@example.com", name := some "Ann"
    password := some "pw-a", role := "ADMIN", suspendedAt := none
    suspensionReason := none, laundryId := some laundryA }

/-- An ADMIN bound to laundry B. -/
def adminBRec : UserRecord :=
  { id := "user-admB", email := "adminB@example.com", name := some "Bob"
    password := some "pw-b", role := "ADMIN", suspendedAt := none
    suspensionReason := none, laundryId := some laundryB }

/-- An ADMIN with no laundry association. -/
def adminNoLaundryRec : UserRecord :=
  { id := "user-adm0", email := "adm0@example.com", name := some "Nia"
    password := some "pw-0", role := "ADMIN", suspendedAt := none
    suspensionReason := none, laundryId := none }

/-- A CUSTOMER whose orders all belong to laundry A. -/
def custRec : UserRecord :=
  { id := "cust-1", email := "c1@example.com", name := some "Cleo"
    password := some "pw-c1", role := "CUSTOMER", suspendedAt := none
    suspensionReason := none, laundryId := none }

/-- A CUSTOMER with no orders at all. -/
def custFreeRec : UserRecord :=
  { id := "cust-2", email := "free@example.com", name := some "Finn"
    password := some pwFree, role := "CUSTOMER", suspendedAt := none
    suspensionReason := none, laundryId := none }

/-- A suspended CUSTOMER (suspended at time 100, i.e. after the fixture
tokens are issued at time 0). -/
def suspendedRec : UserRecord :=
  { id := "user-susp", email := "susp@example.com", name := some "Sue"
    password := some pwHash, role := "CUSTOMER", suspendedAt := some 100
    suspensionReason := some reasonFraud, laundryId := none }

/-- User lookup by id over the fixture records. -/
def findUser0 : String → Option UserRecord := fun i =>
  if i = superUserRec.id then some superUserRec
  else if i = adminARec.id then some adminARec
  else if i = adminBRec.id then some adminBRec
  else if i = adminNoLaundryRec.id then some adminNoLaundryRec
  else if i = custRec.id then some custRec
  else if i = custFreeRec.id then some custFreeRec
  else if i = suspendedRec.id then some suspendedRec
  else none

/-- User lookup by email over the fixture records. -/
def findByEmail0 : String → Option UserRecord := fun e =>
  if e = suspendedRec.email then some suspendedRec
  else if e = custFreeRec.email then some custFreeRec
  else none

/-- Id of the fixture order. -/
def orderId1 : String := "order-1"

/-- The fixture order: owned by customer `cust-1`, tenant laundry A. -/
def orderRow1 : OrderRow :=
  { id := orderId1, customerId := custRec.id, laundryId := laundryA }

/-- Fixture database: users, the customer's orders (projected to their
laundry id), and the order table. -/
def db0 : DB :=
  { findUser := findUser0
    ordersOf := fun i => if i = custRec.id then [laundryA] else []
    findOrder := fun i => if i = orderId1 then some orderRow1 else none }

/-- A token issued at time 0 for the given fixture user. -/
def tokenFor (u : UserRecord) : Token := createJWT secret0 0 u

/-- The `AuthUser` that `authenticateUser` assembles from an unsuspended
record (mirrors the success branch). -/
def authUserOf (u : UserRecord) : AuthUser :=
  { sub := u.id
    email := u.email
    name := jsStrOr u.name emptyString
    role := u.role
    laundryId := u.laundryId
    isSuspended := u.suspendedAt.isSome
    suspensionReason := jsStrOrUndef u.suspensionReason }

/-- Stand-in for `bcrypt.compare` on the fixture hashes: plain equality. -/
def bcryptEq : String → String → Bool := fun a b => a = b

/-- Options object with `requireLaundry: true` and `allowSuperAdmin`
left undefined. -/
def optsTenant : RoleOptions := { requireLaundry := some true, allowSuperAdmin := none }

/-- Order status PENDING. -/
def stPending : String := "PENDING"

/-- Order status CONFIRMED. -/
def stConfirmed : String := "CONFIRMED"

/-- Order status IN_PROGRESS. -/
def stInProgress : String := "IN_PROGRESS"

/-- Order status DELIVERED. -/
def stDelivered : String := "DELIVERED"

/-- Order status COMPLETED. -/
def stCompleted : String := "COMPLETED"

/-- Order status CANCELED. -/
def stCanceled : String := "CANCELED"

/-- Unguarded-handler body requesting status CANCELED. -/
def cancelBody : StatusBody := { status := some stCanceled, notes := none }

/-- Unguarded-handler body requesting status PENDING. -/
def samePendingBody : StatusBody := { status := some stPending, notes := none }

/-- Guarded-handler body requesting status DELIVERED. -/
def updToDelivered : UpdateOrderData :=
  { status := some stDelivered, pickupDate := none, deliveryDate := none, notes := none }

/-- Guarded-handler body requesting status CANCELED. -/
def updToCanceled : UpdateOrderData :=
  { status := some stCanceled, pickupDate := none, deliveryDate := none, notes := none }

/-- Guarded-handler body requesting status IN_PROGRESS. -/
def updToInProgress : UpdateOrderData :=
  { status := some stInProgress, pickupDate := none, deliveryDate := none, notes := none }

/-- A current order row in status PENDING. -/
def curPendingOrder : CurrentOrder := { status := stPending, orderNumber := "ORD-1" }

/-- A current order row in status DELIVERED. -/
def curDeliveredOrder : CurrentOrder := { status := stDelivered, orderNumber := "ORD-2" }

/-! Theorems settling the claims. -/

/-- C2: for every principal whose role is SUPER_ADMIN, every allowed-role
list (including lists excluding SUPER_ADMIN) and every options value in
which `allowSuperAdmin` is not explicitly `false`, `requireRole` returns
the principal as authorized unconditionally. -/
theorem requireRole_superAdmin_bypass
    (secret : String) (now : Nat) (findUser : String → Option UserRecord)
    (token : Token) (allowedRoles : List String) (options : Option RoleOptions)
    (user : AuthUser)
    (hauth : authenticateUser secret now findUser token = .ok user)
    (hrole : user.role = "SUPER_ADMIN")
    (helev : optField options RoleOptions.allowSuperAdmin ≠ some false) :
    requireRole secret now findUser token allowedRoles options = .ok user := by
  unfold requireRole
  rw [hauth]
  simp [hrole, helev]

/-- C2 witness: a concrete SUPER_ADMIN principal is authorized against the
allow-list `[ADMIN]` (which excludes SUPER_ADMIN) with `requireLaundry`
set and `allowSuperAdmin` left undefined. -/
theorem requireRole_superAdmin_bypass_witness :
    requireRole secret0 10 findUser0 (tokenFor superUserRec) ["ADMIN"] (some optsTenant)
      = .ok (authUserOf superUserRec) :=
  requireRole_superAdmin_bypass secret0 10 findUser0 (tokenFor superUserRec)
    ["ADMIN"] (some optsTenant) (authUserOf superUserRec)
    (by decide) (by decide) (by decide)

/-- C6: every ADMIN principal without a laundry association is rejected
with HTTP 403 by `requireRole` when `requireLaundry` is set, whatever the
allowed-role list is (whether or not it contains ADMIN). -/
theorem requireRole_adminWithoutLaundry_forbidden
    (secret : String) (now : Nat) (findUser : String → Option UserRecord)
    (token : Token) (allowedRoles : List String) (o : RoleOptions)
    (user : AuthUser)
    (hauth : authenticateUser secret now findUser token = .ok user)
    (hrole : user.role = "ADMIN")
    (hlaundry : user.laundryId = none)
    (hreq : o.requireLaundry = some true) :
    (requireRole secret now findUser token allowedRoles (some o)).httpStatus = some 403 := by
  unfold requireRole
  rw [hauth]
  by_cases hmem : "ADMIN" ∈ allowedRoles <;>
    simp [hrole, hmem, optField, hreq, jsFalsyStr, hlaundry, AuthResult.httpStatus]

/-- C6 witness: the concrete laundry-less ADMIN is rejected with 403 even
though ADMIN is in the allowed-role list. -/
theorem requireRole_adminWithoutLaundry_forbidden_witness :
    (requireRole secret0 10 findUser0 (tokenFor adminNoLaundryRec) ["ADMIN"]
        (some optsTenant)).httpStatus = some 403 :=
  requireRole_adminWithoutLaundry_forbidden secret0 10 findUser0
    (tokenFor adminNoLaundryRec) ["ADMIN"] optsTenant (authUserOf adminNoLaundryRec)
    (by decide) (by decide) (by decide) (by decide)

/-- C3: a request bearing a valid, unexpired token for a user whose live
record is suspended fails with 403 "Account suspended" surfacing the
stored suspension reason — whatever the suspension time is relative to
the token's issuance — and the outcome depends on the token only through
its subject id (every other valid token with the same subject gives the
same result). -/
theorem authenticateUser_suspended_forbidden
    (secret : String) (now : Nat) (findUser : String → Option UserRecord)
    (token : Token) (user : UserRecord) (t : Nat) (r : String)
    (hsig : token.secret = secret) (hexp : now < token.payload.exp)
    (hfind : findUser token.payload.sub = some user)
    (hsusp : user.suspendedAt = some t)
    (hreason : user.suspensionReason = some r) (hr : r ≠ "") :
    authenticateUser secret now findUser token = .resp 403 "Account suspended" (some r)
    ∧ ∀ token2 : Token, token2.secret = secret → now < token2.payload.exp →
        token2.payload.sub = token.payload.sub →
        authenticateUser secret now findUser token2
          = authenticateUser secret now findUser token := by
  constructor
  · simp [authenticateUser, jwtVerify, hsig, hexp, hfind, hsusp, jsStrOr, hreason, hr]
  · intro token2 h1 h2 h3
    simp [authenticateUser, jwtVerify, hsig, hexp, h1, h2, h3]

/-- C3 witness: the suspended fixture user (suspended at time 100, after
the token's issuance at time 0) presents a valid token at time 10 and is
rejected with 403 and the stored reason. -/
theorem authenticateUser_suspended_forbidden_witness :
    authenticateUser secret0 10 findUser0 (tokenFor suspendedRec)
      = .resp 403 "Account suspended" (some reasonFraud) :=
  (authenticateUser_suspended_forbidden secret0 10 findUser0 (tokenFor suspendedRec)
    suspendedRec 100 reasonFraud
    (by decide) (by decide) (by decide) (by decide) (by decide) (by decide)).1

/-- C4: ownership check on orders (`requireOrderAccess`): a SUPER_ADMIN
principal always passes; a CUSTOMER passes iff the principal's id equals
the order's owning customer id (else 403); an ADMIN passes iff the
order's laundry id equals the principal's laundryId (else 403), so a
cross-tenant admin is rejected while the owning tenant's admin passes. -/
theorem requireOrderAccess_ownership
    (secret : String) (now : Nat) (db : DB) (token : Token) (orderId : String)
    (user : AuthUser) (order : OrderRow)
    (hauth : authenticateUser secret now db.findUser token = .ok user)
    (horder : db.findOrder orderId = some order) :
    (user.role = "SUPER_ADMIN" →
        requireOrderAccess secret now db token orderId = .ok user)
    ∧ (user.role = "CUSTOMER" →
        requireOrderAccess secret now db token orderId =
          if order.customerId = user.sub then .ok user
          else .resp 403 "Access denied: You can only access your own orders" none)
    ∧ (user.role = "ADMIN" →
        requireOrderAccess secret now db token orderId =
          if some order.laundryId = user.laundryId then .ok user
          else .resp 403 "Access denied: Order not associated with your laundry" none) := by
  refine ⟨?_, ?_, ?_⟩ <;> intro hrole <;>
    unfold requireOrderAccess requireRole <;> rw [hauth]
  · simp [hrole, optField]
  · by_cases hc : order.customerId = user.sub <;>
      simp [hrole, optField, horder, hc]
  · by_cases hl : some order.laundryId = user.laundryId <;>
      simp [hrole, optField, horder, hl]

/-- C4 witness: the admin of laundry A (the fixture order's tenant) passes
`requireOrderAccess`, while the admin of laundry B is rejected with 403. -/
theorem requireOrderAccess_ownership_witness :
    requireOrderAccess secret0 10 db0 (tokenFor adminARec) orderId1 = .ok (authUserOf adminARec)
    ∧ (requireOrderAccess secret0 10 db0 (tokenFor adminBRec) orderId1).httpStatus = some 403 := by
  constructor
  · have h := (requireOrderAccess_ownership secret0 10 db0 (tokenFor adminARec) orderId1
      (authUserOf adminARec) orderRow1 (by decide) (by decide)).2.2 (by decide)
    rw [h]; decide
  · have h := (requireOrderAccess_ownership secret0 10 db0 (tokenFor adminBRec) orderId1
      (authUserOf adminBRec) orderRow1 (by decide) (by decide)).2.2 (by decide)
    rw [h]; decide

/-- C10: for an authenticated ADMIN principal and an existing customer
record, `requireCustomerOwnership` inspects only the laundry id of the
customer's first fetched order: if the customer has no orders the admin
is authorized regardless of tenant, and if the first fetched order
belongs to the admin's laundry the admin is authorized as well. -/
theorem requireCustomerOwnership_take1
    (secret : String) (now : Nat) (db : DB) (token : Token) (rid : String)
    (user : AuthUser) (target : UserRecord)
    (hauth : authenticateUser secret now db.findUser token = .ok user)
    (hrole : user.role = "ADMIN")
    (htarget : db.findUser rid = some target) :
    (db.ordersOf rid = [] →
        requireCustomerOwnership secret now db token rid = .ok user)
    ∧ (∀ l rest, db.ordersOf rid = l :: rest → user.laundryId = some l →
        requireCustomerOwnership secret now db token rid = .ok user) := by
  constructor
  · intro hempty
    unfold requireCustomerOwnership requireRole
    rw [hauth]
    simp [hrole, optField, htarget, hempty]
  · intro l rest hcons hlaundry
    unfold requireCustomerOwnership requireRole
    rw [hauth]
    simp [hrole, optField, htarget, hcons, hlaundry]

/-- C10 witness: the laundry-B admin is authorized on the order-less
fixture customer, and the laundry-A admin is authorized on the customer
whose first fetched order belongs to laundry A. -/
theorem requireCustomerOwnership_take1_witness :
    requireCustomerOwnership secret0 10 db0 (tokenFor adminBRec) custFreeRec.id
      = .ok (authUserOf adminBRec)
    ∧ requireCustomerOwnership secret0 10 db0 (tokenFor adminARec) custRec.id
      = .ok (authUserOf adminARec) := by
  constructor
  · exact (requireCustomerOwnership_take1 secret0 10 db0 (tokenFor adminBRec)
      custFreeRec.id (authUserOf adminBRec) custFreeRec
      (by decide) (by decide) (by decide)).1 (by decide)
  · exact (requireCustomerOwnership_take1 secret0 10 db0 (tokenFor adminARec)
      custRec.id (authUserOf adminARec) custRec
      (by decide) (by decide) (by decide)).2 laundryA [] (by decide) (by decide)

/-- C9 counterexample: the sign-in route performs no suspension check, so
it issues a token for the suspended fixture user; presenting that token
before expiry, with the record unchanged, yields the 403 suspension
response — not a Principal matching the record. -/
theorem signin_roundtrip_suspended_counterexample :
    signinPOST bcryptEq secret0 0 findByEmail0 suspendedRec.email pwHash
      = some (tokenFor suspendedRec)
    ∧ authenticateUser secret0 10 findUser0 (tokenFor suspendedRec)
      = .resp 403 "Account suspended" (some reasonFraud) := by
  constructor <;> decide

/-- C9 (amended): for every user record that is not suspended, a token
issued by sign-in for that record, presented to `authenticateUser` before
its 7-day expiry and before the record changes, resolves to a Principal
whose id, email and role equal the record's values at issuance time. -/
theorem signin_authenticate_roundtrip
    (bc : String → String → Bool) (secret : String) (now1 now2 : Nat)
    (findByEmail findUser : String → Option UserRecord)
    (email password : String) (user : UserRecord) (token : Token)
    (hfind : findByEmail email = some user)
    (hissued : signinPOST bc secret now1 findByEmail email password = some token)
    (hlive : findUser user.id = some user)
    (hnosusp : user.suspendedAt = none)
    (hfresh : now2 < now1 + 7 * 24 * 60 * 60) :
    authenticateUser secret now2 findUser token =
      .ok { sub := user.id
            email := user.email
            name := jsStrOr user.name emptyString
            role := user.role
            laundryId := user.laundryId
            isSuspended := false
            suspensionReason := jsStrOrUndef user.suspensionReason } := by
  unfold signinPOST at hissued
  rw [hfind] at hissued
  simp only [] at hissued
  cases hpw : user.password with
  | none => rw [hpw] at hissued; simp at hissued
  | some hash =>
    rw [hpw] at hissued
    cases hbc : bc password hash with
    | false => simp [hbc] at hissued
    | true =>
      simp [hbc] at hissued
      subst hissued
      simp [authenticateUser, jwtVerify, createJWT, hfresh, hlive, hnosusp]

/-- C9 witness: the unsuspended fixture customer signs in at time 0 and
authenticates successfully at time 10 with matching id/email/role. -/
theorem signin_authenticate_roundtrip_witness :
    authenticateUser secret0 10 findUser0 (tokenFor custFreeRec)
      = .ok (authUserOf custFreeRec) :=
  signin_authenticate_roundtrip bcryptEq secret0 0 10 findByEmail0 findUser0
    custFreeRec.email pwFree custFreeRec (tokenFor custFreeRec)
    (by decide) (by decide) (by decide) (by decide) (by decide)

/-- C1 (code bug in the unguarded handler): the unguarded PATCH handler
accepts the transition COMPLETED → CANCELED out of a terminal status —
no InvalidTransition is raised, the new status is persisted with HTTP 200
and an activity row is recorded, contrary to the allowed-transition
table the claim (and the guarded handler) enforce. -/
theorem patchUnguarded_completed_to_canceled :
    patchUnguarded (some laundryA) cancelBody (some stCompleted) =
      { httpStatus := 200
        message := "Order status updated successfully"
        persistedStatus := some stCanceled
        activity := some { type := "ORDER_CANCELED"
                           previousStatus := stCompleted
                           newStatus := stCanceled
                           userId := none } } := by
  decide

/-- C5 (code bug in the unguarded handler): a request whose requested
status equals the order's current status (PENDING → PENDING) does not
fail, but the unguarded handler still records a status-change activity
row for the no-op update, contrary to the claim that no audit event is
emitted. -/
theorem patchUnguarded_noop_emits_activity :
    patchUnguarded (some laundryA) samePendingBody (some stPending) =
      { httpStatus := 200
        message := "Order status updated successfully"
        persistedStatus := some stPending
        activity := some { type := "ORDER_CREATED"
                           previousStatus := stPending
                           newStatus := stPending
                           userId := none } } := by
  decide

/-- C7 counterexample: the guarded PATCH handler rejects the illegal
transition PENDING → DELIVERED with HTTP 400, not 409. -/
theorem patchGuarded_invalidTransition_not409 :
    patchGuarded (some curPendingOrder) updToDelivered adminARec.id =
      { httpStatus := 400
        message := "Invalid status transition from " ++ stPending ++ " to " ++ stDelivered
        persistedStatus := none
        activity := none }
    ∧ (patchGuarded (some curPendingOrder) updToDelivered adminARec.id).httpStatus ≠ 409 := by
  constructor <;> decide

/-- C7 (amended): every rejection of an illegal order status transition by
the guarded PATCH handler is reported with HTTP status 400 in the JSON
error envelope, naming both statuses, with nothing persisted and no
activity recorded. -/
theorem patchGuarded_invalidTransition_http400
    (cur : CurrentOrder) (upd : UpdateOrderData) (sub req : String)
    (hreq : upd.status = some req) (hreq0 : req ≠ "")
    (hneq : req ≠ cur.status)
    (hnot : ¬ ((allowedTargets cur.status).contains req)) :
    patchGuarded (some cur) upd sub =
      { httpStatus := 400
        message := "Invalid status transition from " ++ cur.status ++ " to " ++ req
        persistedStatus := none
        activity := none } := by
  unfold patchGuarded
  replace hnot : req ∉ allowedTargets cur.status := by simpa using hnot
  simp [isStatusChange, hreq, hreq0, hneq, hnot]

/-- C7 witness: the spec's own scenario DELIVERED → CANCELED is rejected
by the guarded handler with HTTP 400, naming both statuses. -/
theorem patchGuarded_invalidTransition_http400_witness :
    patchGuarded (some curDeliveredOrder) updToCanceled adminARec.id =
      { httpStatus := 400
        message := "Invalid status transition from " ++ curDeliveredOrder.status ++ " to " ++ stCanceled
        persistedStatus := none
        activity := none } :=
  patchGuarded_invalidTransition_http400 curDeliveredOrder updToCanceled
    adminARec.id stCanceled (by decide) (by decide) (by decide) (by decide)

/-- C8 counterexample: two interleaved requests on an order read as
CONFIRMED — one cancelling, one starting progress — both succeed with
HTTP 200 (neither receives a 409 Conflict), and the second write
overwrites the first: the final stored status is IN_PROGRESS even though
the order had just been CANCELED. -/
theorem interleavedPatches_conflict_counterexample :
    (interleavedPatches stConfirmed updToCanceled updToInProgress adminARec.id adminBRec.id).2.1.httpStatus = 200
    ∧ (interleavedPatches stConfirmed updToCanceled updToInProgress adminARec.id adminBRec.id).2.2.httpStatus = 200
    ∧ (interleavedPatches stConfirmed updToCanceled updToInProgress adminARec.id adminBRec.id).1 = stInProgress := by
  refine ⟨?_, ?_, ?_⟩ <;> decide

/-- C8 (amended): the guarded handler re-reads the status before
validating, but persists through an update keyed only by the order id —
there is no conditional write.  In the read-read-write-write interleaving
of two requests whose statuses are both valid successors of the
originally read status, both requests succeed with HTTP 200 (no Conflict
is reported) and the second write silently overwrites the first. -/
theorem interleavedPatches_lost_update
    (st a b subA subB : String) (updA updB : UpdateOrderData)
    (hA : updA.status = some a) (hA0 : a ≠ "") (hAne : a ≠ st)
    (hAmem : (allowedTargets st).contains a)
    (hB : updB.status = some b) (hB0 : b ≠ "") (hBne : b ≠ st)
    (hBmem : (allowedTargets st).contains b) :
    (interleavedPatches st updA updB subA subB).2.1.httpStatus = 200
    ∧ (interleavedPatches st updA updB subA subB).2.2.httpStatus = 200
    ∧ (interleavedPatches st updA updB subA subB).1 = b := by
  unfold interleavedPatches patchRead patchWrite
  replace hAmem : a ∈ allowedTargets st := by simpa using hAmem
  replace hBmem : b ∈ allowedTargets st := by simpa using hBmem
  simp [isStatusChange, hA, hB, hA0, hAne, hAmem, hB0, hBne, hBmem]

/-- C8 witness: with the order read as CONFIRMED, a request to
IN_PROGRESS followed by a request to CANCELED both succeed and the final
status is CANCELED (the second writer wins). -/
theorem interleavedPatches_lost_update_witness :
    (interleavedPatches stConfirmed updToInProgress updToCanceled adminARec.id adminBRec.id).2.1.httpStatus = 200
    ∧ (interleavedPatches stConfirmed updToInProgress updToCanceled adminARec.id adminBRec.id).2.2.httpStatus = 200
    ∧ (interleavedPatches stConfirmed updToInProgress updToCanceled adminARec.id adminBRec.id).1 = stCanceled :=
  interleavedPatches_lost_update stConfirmed stInProgress stCanceled
    adminARec.id adminBRec.id updToInProgress updToCanceled
    (by decide) (by decide) (by decide) (by decide)
    (by decide) (by decide) (by decide) (by decide)

end Laundry
